import Mathlib

/-!
Verification of the request-admission (rate limiting) subsystem, the speaker
attribution engine and the document analysis route of the repository.

The embedding follows the TypeScript source:
* `src/app/lib/rate-limiter.ts` (the admission controller),
* the conversation route with `performDiarization` (speaker attribution),
* `src/app/api/analyze/document/route.ts` (the document orchestrator),
* the image route.

Timestamps are natural numbers (milliseconds, as `Date.now()` values).
External services (axios, cheerio, pdf-parse, pdf2pic, mammoth, the OpenAI
client) are modelled as oracle inputs; the control flow around them is
translated from the source.
-/

namespace AiPlayground

/-! ## Rate limiter (src/app/lib/rate-limiter.ts) -/

/-- Configuration of one limiter: `interval` is the window in milliseconds,
`maxRequests` the ceiling of admitted requests per window. -/
structure RateLimitConfig where
  interval : Nat
  maxRequests : Nat
deriving DecidableEq, Repr

/-- One entry of the `requestLogs` map: request count and the window reset
timestamp. -/
structure RequestLog where
  count : Nat
  resetTime : Nat
deriving DecidableEq, Repr

/-- The shared in-memory `requestLogs` map. All four preset limiters close
over the single module-level map, so the store is not parameterised by the
configuration. -/
def Store : Type := String → Option RequestLog

/-- Result object returned by the limiter closure. `remaining` is an integer
because the source computes it with JavaScript number subtraction.
`retryAfter` is present only on rejection. -/
structure AdmitResult where
  allowed : Bool
  remaining : Int
  resetTime : Nat
  retryAfter : Option Nat
deriving DecidableEq, Repr

/-- Map update, modelling `requestLogs.set(id, log)`. -/
def updateStore (σ : Store) (id : String) (log : RequestLog) : Store :=
  fun k => if k = id then some log else σ k

/-- Ceiling division on naturals; models `Math.ceil((resetTime - now) / 1000)`
(the numerator is non-negative at the call site). -/
def ceilDiv (a b : Nat) : Nat := (a + b - 1) / b

/-- The branch taken when no log exists for the identifier or the stored
window has expired: a new window with count 1 is created. -/
def freshStep (config : RateLimitConfig) (now : Nat) (σ : Store) (id : String) :
    AdmitResult × Store :=
  (⟨true, (config.maxRequests : Int) - 1, now + config.interval, none⟩,
   updateStore σ id ⟨1, now + config.interval⟩)

/-- One invocation of the closure returned by `rateLimit(config)`, at time
`now`, for an already-resolved identifier. Translated from the body of
`rateLimit` in `rate-limiter.ts`. -/
def rateLimitStep (config : RateLimitConfig) (now : Nat) (σ : Store) (id : String) :
    AdmitResult × Store :=
  match σ id with
  | none => freshStep config now σ id
  | some log =>
    if log.resetTime < now then
      freshStep config now σ id
    else if config.maxRequests ≤ log.count then
      (⟨false, 0, log.resetTime, some (ceilDiv (log.resetTime - now) 1000)⟩, σ)
    else
      (⟨true, (config.maxRequests : Int) - (log.count + 1), log.resetTime, none⟩,
       updateStore σ id ⟨log.count + 1, log.resetTime⟩)

/-- JavaScript `a || b` on an optional string: the empty string is falsy. -/
def jsOr (a : Option String) (b : String) : String :=
  match a with
  | some s => if s.isEmpty then b else s
  | none => b

/-- Identifier resolution at the top of the limiter closure:
`identifier || x-forwarded-for || x-real-ip || 'anonymous'`. -/
def resolveIdentifier (identifier xForwardedFor xRealIp : Option String) : String :=
  jsOr identifier (jsOr xForwardedFor (jsOr xRealIp "anonymous"))

/-- The four preset configurations of `rateLimiters`. Note that all four
closures share the single module-level `requestLogs` map. -/
def standardConfig : RateLimitConfig := ⟨60000, 30⟩

/-- Heavy operations (PDF processing): 5 requests per minute. -/
def heavyConfig : RateLimitConfig := ⟨60000, 5⟩

/-- Auth endpoints: 10 attempts per 15 minutes. -/
def authConfig : RateLimitConfig := ⟨900000, 10⟩

/-- Image processing: 10 requests per minute. -/
def imageConfig : RateLimitConfig := ⟨60000, 10⟩

/-- No live window for `id` at time `now`: either no entry, or the stored
entry has expired. -/
def freshAt (σ : Store) (id : String) (now : Nat) : Prop :=
  ∀ log, σ id = some log → log.resetTime < now

/-- A sequence of limiter invocations for a fixed identifier at the given
times, threading the store; returns the results in call order. -/
def admitSeq (config : RateLimitConfig) (id : String) :
    List Nat → Store → List AdmitResult × Store
  | [], σ => ([], σ)
  | t :: ts, σ =>
    let p := rateLimitStep config t σ id
    let q := admitSeq config id ts p.2
    (p.1 :: q.1, q.2)

/-- A sequence of limiter invocations at given (time, identifier) pairs,
returning the final store. -/
def runCalls (config : RateLimitConfig) : List (Nat × String) → Store → Store
  | [], σ => σ
  | c :: cs, σ => runCalls config cs (rateLimitStep config c.1 σ c.2).2

/-- The empty `requestLogs` map. -/
def emptyStore : Store := fun _ => none

lemma updateStore_same (σ : Store) (id : String) (log : RequestLog) :
    updateStore σ id log id = some log := by
  simp [updateStore]

lemma rateLimitStep_of_fresh (config : RateLimitConfig) (now : Nat) (σ : Store)
    (id : String) (h : freshAt σ id now) :
    rateLimitStep config now σ id = freshStep config now σ id := by
  unfold rateLimitStep
  cases hσ : σ id with
  | none => rfl
  | some log =>
    have := h log hσ
    simp [this]

lemma rateLimitStep_increment (config : RateLimitConfig) (now : Nat) (σ : Store)
    (id : String) (log : RequestLog) (hσ : σ id = some log)
    (hopen : ¬ log.resetTime < now) (hlt : log.count < config.maxRequests) :
    rateLimitStep config now σ id =
      (⟨true, (config.maxRequests : Int) - (log.count + 1), log.resetTime, none⟩,
       updateStore σ id ⟨log.count + 1, log.resetTime⟩) := by
  unfold rateLimitStep
  rw [hσ]
  simp [hopen, Nat.not_le.mpr hlt]

lemma rateLimitStep_reject (config : RateLimitConfig) (now : Nat) (σ : Store)
    (id : String) (log : RequestLog) (hσ : σ id = some log)
    (hopen : ¬ log.resetTime < now) (hfull : config.maxRequests ≤ log.count) :
    rateLimitStep config now σ id =
      (⟨false, 0, log.resetTime, some (ceilDiv (log.resetTime - now) 1000)⟩, σ) := by
  unfold rateLimitStep
  rw [hσ]
  simp [hopen, hfull]

/-- Batch lemma: starting from a live window with count `c`, a run of calls
all within the window and fitting under the ceiling is fully admitted and
leaves count `c + ts.length` with the reset time unchanged. -/
lemma admitSeq_allowed (config : RateLimitConfig) (id : String) (ts : List Nat) :
    ∀ (σ : Store) (c R : Nat), σ id = some ⟨c, R⟩ →
      c + ts.length ≤ config.maxRequests →
      (∀ t ∈ ts, t ≤ R) →
      (∀ r ∈ (admitSeq config id ts σ).1, r.allowed = true) ∧
        (admitSeq config id ts σ).2 id = some ⟨c + ts.length, R⟩ := by
  induction ts with
  | nil =>
    intro σ c R hσ _ _
    refine ⟨?_, ?_⟩
    · intro r hr
      simp [admitSeq] at hr
    · simpa [admitSeq] using hσ
  | cons t ts ih =>
    intro σ c R hσ hle hts
    have hopen : ¬ (RequestLog.mk c R).resetTime < t :=
      Nat.not_lt.mpr (hts t (by simp))
    have hlt : c < config.maxRequests := by
      simp only [List.length_cons] at hle
      omega
    have hstep := rateLimitStep_increment config t σ id ⟨c, R⟩ hσ hopen hlt
    have hσ' : (rateLimitStep config t σ id).2 id = some ⟨c + 1, R⟩ := by
      rw [hstep]; exact updateStore_same σ id ⟨c + 1, R⟩
    have hle' : c + 1 + ts.length ≤ config.maxRequests := by
      simp only [List.length_cons] at hle
      omega
    have hts' : ∀ u ∈ ts, u ≤ R := fun u hu => hts u (by simp [hu])
    have hrec := ih (rateLimitStep config t σ id).2 (c + 1) R hσ' hle' hts'
    constructor
    · intro r hr
      simp only [admitSeq] at hr
      rcases List.mem_cons.mp hr with h1 | h2
      · rw [h1, hstep]
      · exact hrec.1 r h2
    · simp only [admitSeq]
      have hlen : c + 1 + ts.length = c + (t :: ts).length := by
        simp only [List.length_cons]
        omega
      rw [← hlen]
      exact hrec.2

/-- The claimed formula for the retry hint: the ceiling of
`(resetAt - now) / 1000`. -/
lemma ceilDiv_spec (a : Nat) : ceilDiv a 1000 = (a + 999) / 1000 := rfl

/-- C1. For every identifier and a limiter configured with `maxRequests = N`
and window `W`: each of the first `N` calls within one open window is
allowed, the `(N+1)`-th call within the same window is rejected with
`remaining = 0` and `retryAfter = ceil((resetAt - now)/1000)`, and the first
call after `resetAt` has passed opens a fresh window with count 1 and
`remaining = N - 1`. The first call happens at `t0` on a fresh identifier,
the next `N - 1` calls at times `ts` within the window, the rejected call at
`tr ≤ t0 + W`, and the reopening call at `tn > t0 + W`. -/
theorem C1_window_lifecycle (config : RateLimitConfig) (σ : Store) (id : String)
    (t0 tr tn : Nat) (ts : List Nat)
    (hfresh : freshAt σ id t0)
    (hlen : ts.length + 1 = config.maxRequests)
    (hts : ∀ t ∈ ts, t ≤ t0 + config.interval)
    (htr : tr ≤ t0 + config.interval)
    (htn : t0 + config.interval < tn) :
    let s1 := rateLimitStep config t0 σ id
    let s2 := admitSeq config id ts s1.2
    let s3 := rateLimitStep config tr s2.2 id
    let s4 := rateLimitStep config tn s3.2 id
    s1.1.allowed = true ∧
    s1.1.remaining = (config.maxRequests : Int) - 1 ∧
    (∀ r ∈ s2.1, r.allowed = true) ∧
    s3.1.allowed = false ∧
    s3.1.remaining = 0 ∧
    s3.1.retryAfter = some (ceilDiv (t0 + config.interval - tr) 1000) ∧
    s4.1.allowed = true ∧
    s4.1.remaining = (config.maxRequests : Int) - 1 ∧
    s4.2 id = some ⟨1, tn + config.interval⟩ := by
  intro s1 s2 s3 s4
  have hstep1 : s1 = freshStep config t0 σ id :=
    rateLimitStep_of_fresh config t0 σ id hfresh
  have hσ1 : s1.2 id = some ⟨1, t0 + config.interval⟩ := by
    rw [hstep1]; exact updateStore_same σ id _
  have hle : 1 + ts.length ≤ config.maxRequests := by omega
  have hbatch := admitSeq_allowed config id ts s1.2 1 (t0 + config.interval) hσ1 hle hts
  have hσ2 : s2.2 id = some ⟨1 + ts.length, t0 + config.interval⟩ := hbatch.2
  have hcount : 1 + ts.length = config.maxRequests := by omega
  have hopen3 : ¬ (RequestLog.mk (1 + ts.length) (t0 + config.interval)).resetTime < tr :=
    Nat.not_lt.mpr htr
  have hfull : config.maxRequests ≤ 1 + ts.length := le_of_eq hcount.symm
  have hstep3 := rateLimitStep_reject config tr s2.2 id ⟨1 + ts.length, t0 + config.interval⟩
    hσ2 hopen3 hfull
  have hσ3 : s3.2 id = some ⟨1 + ts.length, t0 + config.interval⟩ := by
    show (rateLimitStep config tr s2.2 id).2 id = _
    rw [hstep3]; exact hσ2
  have hfresh4 : freshAt s3.2 id tn := by
    intro log hlog
    rw [hσ3] at hlog
    cases hlog
    simpa using htn
  have hstep4 : s4 = freshStep config tn s3.2 id :=
    rateLimitStep_of_fresh config tn s3.2 id hfresh4
  refine ⟨by rw [hstep1]; rfl, by rw [hstep1]; rfl, hbatch.1, ?_, ?_, ?_, ?_, ?_, ?_⟩
  · show (rateLimitStep config tr s2.2 id).1.allowed = false
    rw [hstep3]
  · show (rateLimitStep config tr s2.2 id).1.remaining = 0
    rw [hstep3]
  · show (rateLimitStep config tr s2.2 id).1.retryAfter = _
    rw [hstep3]
  · rw [hstep4]; rfl
  · rw [hstep4]; rfl
  · rw [hstep4]; exact updateStore_same s3.2 id _

/-- Witness for C1 at a concrete configuration (2 requests per 1000 ms):
calls at 0 and 10 are admitted, the third call at 500 is rejected with a
1-second retry hint, and a call at 1001 reopens the window. -/
theorem C1_window_lifecycle_witness :
    freshAt emptyStore "a" 0 ∧
    ([10] : List Nat).length + 1 = (⟨1000, 2⟩ : RateLimitConfig).maxRequests ∧
    (∀ t ∈ ([10] : List Nat), t ≤ 0 + (1000 : Nat)) ∧
    500 ≤ 0 + (1000 : Nat) ∧ 0 + (1000 : Nat) < 1001 ∧
    (let s1 := rateLimitStep ⟨1000, 2⟩ 0 emptyStore "a"
     let s2 := admitSeq ⟨1000, 2⟩ "a" [10] s1.2
     let s3 := rateLimitStep ⟨1000, 2⟩ 500 s2.2 "a"
     let s4 := rateLimitStep ⟨1000, 2⟩ 1001 s3.2 "a"
     s1.1.allowed = true ∧
     s1.1.remaining = ((⟨1000, 2⟩ : RateLimitConfig).maxRequests : Int) - 1 ∧
     (∀ r ∈ s2.1, r.allowed = true) ∧
     s3.1.allowed = false ∧
     s3.1.remaining = 0 ∧
     s3.1.retryAfter = some (ceilDiv (0 + 1000 - 500) 1000) ∧
     s4.1.allowed = true ∧
     s4.1.remaining = ((⟨1000, 2⟩ : RateLimitConfig).maxRequests : Int) - 1 ∧
     s4.2 "a" = some ⟨1, 1001 + 1000⟩) :=
  by
  have hfresh : freshAt emptyStore "a" 0 := fun _ h => nomatch h
  refine ⟨hfresh, by decide, by decide, by decide, by decide, ?_⟩
  exact C1_window_lifecycle ⟨1000, 2⟩ emptyStore "a" 0 500 1001 [10]
    hfresh (by decide) (by decide) (by decide) (by decide)

/-- The count/ceiling invariant on the shared store. -/
def storeInv (config : RateLimitConfig) (σ : Store) : Prop :=
  ∀ id log, σ id = some log → 1 ≤ log.count ∧ log.count ≤ config.maxRequests

lemma storeInv_step (config : RateLimitConfig) (hmax : 1 ≤ config.maxRequests)
    (σ : Store) (hinv : storeInv config σ) (now : Nat) (id : String) :
    storeInv config (rateLimitStep config now σ id).2 := by
  intro id' log' hlog'
  cases hσ : σ id with
  | none =>
    have hfresh : freshAt σ id now := fun log h => by rw [hσ] at h; cases h
    rw [rateLimitStep_of_fresh config now σ id hfresh] at hlog'
    simp only [freshStep, updateStore] at hlog'
    by_cases hid : id' = id
    · rw [if_pos hid] at hlog'
      cases hlog'
      exact ⟨le_refl 1, hmax⟩
    · rw [if_neg hid] at hlog'
      exact hinv id' log' hlog'
  | some log =>
    by_cases hexp : log.resetTime < now
    · have hfresh : freshAt σ id now := by
        intro log'' h
        rw [hσ] at h
        cases h
        exact hexp
      rw [rateLimitStep_of_fresh config now σ id hfresh] at hlog'
      simp only [freshStep, updateStore] at hlog'
      by_cases hid : id' = id
      · rw [if_pos hid] at hlog'
        cases hlog'
        exact ⟨le_refl 1, hmax⟩
      · rw [if_neg hid] at hlog'
        exact hinv id' log' hlog'
    · by_cases hfull : config.maxRequests ≤ log.count
      · rw [rateLimitStep_reject config now σ id log hσ hexp hfull] at hlog'
        exact hinv id' log' hlog'
      · rw [rateLimitStep_increment config now σ id log hσ hexp (Nat.not_le.mp hfull)] at hlog'
        simp only [updateStore] at hlog'
        by_cases hid : id' = id
        · rw [if_pos hid] at hlog'
          cases hlog'
          exact ⟨Nat.le_add_left 1 log.count, Nat.succ_le_of_lt (Nat.not_le.mp hfull)⟩
        · rw [if_neg hid] at hlog'
          exact hinv id' log' hlog'

lemma storeInv_runCalls (config : RateLimitConfig) (hmax : 1 ≤ config.maxRequests) :
    ∀ (calls : List (Nat × String)) (σ : Store), storeInv config σ →
      storeInv config (runCalls config calls σ) := by
  intro calls
  induction calls with
  | nil => intro σ h; exact h
  | cons c cs ih =>
    intro σ h
    exact ih _ (storeInv_step config hmax σ h c.1 c.2)

/-- C2. Window-count invariants of the admission controller: starting from
the empty store, every stored count after any call sequence lies between 1
and the configured ceiling (in particular it is never negative and a new
window starts at count 1); while a window stays open a step never decreases
its count and never changes its reset time; a fresh step stores count 1; and
every allowed result reports `remaining = maxRequests - count` for the count
stored after the increment. -/
theorem C2_count_invariants (config : RateLimitConfig) (hmax : 1 ≤ config.maxRequests) :
    (∀ (calls : List (Nat × String)) (id : String) (log : RequestLog),
       runCalls config calls emptyStore id = some log →
       1 ≤ log.count ∧ log.count ≤ config.maxRequests) ∧
    (∀ (σ : Store) (id : String) (now : Nat) (log log' : RequestLog),
       σ id = some log → ¬ log.resetTime < now →
       (rateLimitStep config now σ id).2 id = some log' →
       log.count ≤ log'.count ∧ log'.resetTime = log.resetTime) ∧
    (∀ (σ : Store) (id : String) (now : Nat), freshAt σ id now →
       (rateLimitStep config now σ id).2 id = some ⟨1, now + config.interval⟩) ∧
    (∀ (σ : Store) (id : String) (now : Nat),
       (rateLimitStep config now σ id).1.allowed = true →
       ∃ log', (rateLimitStep config now σ id).2 id = some log' ∧
         (rateLimitStep config now σ id).1.remaining =
           (config.maxRequests : Int) - log'.count) := by
  refine ⟨?_, ?_, ?_, ?_⟩
  · intro calls id log hlog
    have hempty : storeInv config emptyStore := by
      intro id' log' h
      cases h
    exact storeInv_runCalls config hmax calls emptyStore hempty id log hlog
  · intro σ id now log log' hσ hopen hlog'
    by_cases hfull : config.maxRequests ≤ log.count
    · rw [rateLimitStep_reject config now σ id log hσ hopen hfull] at hlog'
      have hlog2 : σ id = some log' := hlog'
      rw [hσ] at hlog2
      cases hlog2
      exact ⟨le_refl _, rfl⟩
    · rw [rateLimitStep_increment config now σ id log hσ hopen (Nat.not_le.mp hfull)] at hlog'
      have hlog2 : updateStore σ id ⟨log.count + 1, log.resetTime⟩ id = some log' := hlog'
      rw [updateStore_same] at hlog2
      cases hlog2
      exact ⟨Nat.le_succ _, rfl⟩
  · intro σ id now hfresh
    rw [rateLimitStep_of_fresh config now σ id hfresh]
    exact updateStore_same σ id _
  · intro σ id now hallowed
    cases hσ : σ id with
    | none =>
      have hfresh : freshAt σ id now := fun log h => by rw [hσ] at h; cases h
      rw [rateLimitStep_of_fresh config now σ id hfresh]
      exact ⟨⟨1, now + config.interval⟩, updateStore_same σ id _, rfl⟩
    | some log =>
      by_cases hexp : log.resetTime < now
      · have hfresh : freshAt σ id now := by
          intro log' h
          rw [hσ] at h
          cases h
          exact hexp
        rw [rateLimitStep_of_fresh config now σ id hfresh]
        exact ⟨⟨1, now + config.interval⟩, updateStore_same σ id _, rfl⟩
      · by_cases hfull : config.maxRequests ≤ log.count
        · rw [rateLimitStep_reject config now σ id log hσ hexp hfull] at hallowed
          cases hallowed
        · rw [rateLimitStep_increment config now σ id log hσ hexp (Nat.not_le.mp hfull)]
          exact ⟨⟨log.count + 1, log.resetTime⟩, updateStore_same σ id _, by push_cast; ring⟩

/-- Witness for C2 at the heavy configuration: two calls on one identifier
leave count 2 within the bounds, a step inside an open window keeps the
reset time, a fresh step stores count 1, and the allowed result reports
`remaining = 5 - 2`. -/
theorem C2_count_invariants_witness :
    1 ≤ heavyConfig.maxRequests ∧
    runCalls heavyConfig [(0, "a"), (0, "a")] emptyStore "a" = some ⟨2, 60000⟩ ∧
    (1 ≤ (2 : Nat) ∧ (2 : Nat) ≤ heavyConfig.maxRequests) ∧
    ((updateStore emptyStore "a" ⟨1, 60000⟩) "a" = some ⟨1, 60000⟩ ∧
     ¬ (RequestLog.mk 1 60000).resetTime < 5 ∧
     (rateLimitStep heavyConfig 5 (updateStore emptyStore "a" ⟨1, 60000⟩) "a").2 "a" =
       some ⟨2, 60000⟩ ∧
     (1 : Nat) ≤ 2 ∧ (60000 : Nat) = 60000) ∧
    (freshAt emptyStore "a" 0 ∧
     (rateLimitStep heavyConfig 0 emptyStore "a").2 "a" = some ⟨1, 0 + heavyConfig.interval⟩) ∧
    ((rateLimitStep heavyConfig 5 (updateStore emptyStore "a" ⟨1, 60000⟩) "a").1.allowed = true ∧
     ∃ log', (rateLimitStep heavyConfig 5 (updateStore emptyStore "a" ⟨1, 60000⟩) "a").2 "a" =
         some log' ∧
       (rateLimitStep heavyConfig 5 (updateStore emptyStore "a" ⟨1, 60000⟩) "a").1.remaining =
         (heavyConfig.maxRequests : Int) - log'.count) := by
  have h := C2_count_invariants heavyConfig (by decide)
  refine ⟨by decide, by decide, ?_, ?_, ?_, ?_⟩
  · exact h.1 [(0, "a"), (0, "a")] "a" ⟨2, 60000⟩ (by decide)
  · refine ⟨by decide, by decide, ?_, ?_⟩
    · have h2 := h.2.1 (updateStore emptyStore "a" ⟨1, 60000⟩) "a" 5 ⟨1, 60000⟩ ⟨2, 60000⟩
        (by decide) (by decide)
      decide
    · have h3 := h.2.1 (updateStore emptyStore "a" ⟨1, 60000⟩) "a" 5 ⟨1, 60000⟩ ⟨2, 60000⟩
        (by decide) (by decide) (by decide)
      exact ⟨h3.1, rfl⟩
  · have hfresh : freshAt emptyStore "a" 0 := fun _ hh => nomatch hh
    exact ⟨hfresh, h.2.2.1 emptyStore "a" 0 hfresh⟩
  · exact ⟨by decide, h.2.2.2 (updateStore emptyStore "a" ⟨1, 60000⟩) "a" 5 (by decide)⟩

/-- C9. A request with no explicit identifier and neither an
`x-forwarded-for` nor an `x-real-ip` header is keyed under the single fixed
identifier `anonymous`, so all such requests draw down one shared window:
two header-less requests at the same instant land on the same entry, the
second one observing count 2 and `remaining = maxRequests - 2`. -/
theorem C9_anonymous_shared_budget (config : RateLimitConfig) (σ : Store) (now : Nat)
    (hfresh : freshAt σ "anonymous" now) (hmax : 2 ≤ config.maxRequests) :
    resolveIdentifier none none none = "anonymous" ∧
    (let id := resolveIdentifier none none none
     let s1 := rateLimitStep config now σ id
     let s2 := rateLimitStep config now s1.2 id
     s2.2 id = some ⟨2, now + config.interval⟩ ∧
     s2.1.remaining = (config.maxRequests : Int) - 2) := by
  refine ⟨rfl, ?_⟩
  intro id s1 s2
  have hid : id = "anonymous" := rfl
  have hstep1 : s1 = freshStep config now σ id := by
    rw [hid]
    exact rateLimitStep_of_fresh config now σ "anonymous" hfresh
  have hσ1 : s1.2 id = some ⟨1, now + config.interval⟩ := by
    rw [hstep1]
    exact updateStore_same σ id _
  have hopen : ¬ (RequestLog.mk 1 (now + config.interval)).resetTime < now := by
    simp
  have hlt : (1 : Nat) < config.maxRequests := hmax
  have hstep2 := rateLimitStep_increment config now s1.2 id ⟨1, now + config.interval⟩
    hσ1 hopen hlt
  constructor
  · show (rateLimitStep config now s1.2 id).2 id = _
    rw [hstep2]
    exact updateStore_same s1.2 id _
  · show (rateLimitStep config now s1.2 id).1.remaining = _
    rw [hstep2]
    push_cast
    ring

/-- Witness for C9: the image configuration, empty store, time 0. -/
theorem C9_anonymous_shared_budget_witness :
    freshAt emptyStore "anonymous" 0 ∧ 2 ≤ imageConfig.maxRequests ∧
    (resolveIdentifier none none none = "anonymous" ∧
     (let id := resolveIdentifier none none none
      let s1 := rateLimitStep imageConfig 0 emptyStore id
      let s2 := rateLimitStep imageConfig 0 s1.2 id
      s2.2 id = some ⟨2, 0 + imageConfig.interval⟩ ∧
      s2.1.remaining = (imageConfig.maxRequests : Int) - 2)) := by
  have hfresh : freshAt emptyStore "anonymous" 0 := fun _ h => nomatch h
  exact ⟨hfresh, by decide,
    C9_anonymous_shared_budget imageConfig emptyStore 0 hfresh (by decide)⟩

/-! ## Speaker attribution engine (performDiarization, conversation route) -/

/-- Sentence-terminal punctuation recognised by the splitting regex of
`performDiarization`. -/
def sentenceTerm (c : Char) : Bool := c == '.' || c == '!' || c == '?'

/-- Split of the transcript along the regex lookbehind pattern used in the
source: a maximal whitespace run immediately preceded by sentence-terminal
punctuation separates fragments. `acc` is the current fragment reversed;
`skipping` records that a separating whitespace run is being consumed. -/
def splitSentencesAux : List Char → List Char → Bool → List (List Char)
  | [], acc, _ => [acc.reverse]
  | c :: rest, acc, skipping =>
    if skipping && c.isWhitespace then
      splitSentencesAux rest acc skipping
    else if c.isWhitespace && (match acc with | p :: _ => sentenceTerm p | [] => false) then
      acc.reverse :: splitSentencesAux rest [] true
    else
      splitSentencesAux rest (c :: acc) false

/-- JavaScript String.trim over the character list (ASCII whitespace). -/
def trimChars (cs : List Char) : List Char :=
  ((cs.dropWhile Char.isWhitespace).reverse.dropWhile Char.isWhitespace).reverse

/-- JavaScript String.split with a single-character separator; keeps empty
fragments, exactly like split of a one-space string. -/
def splitOnCharAux (sep : Char) : List Char → List Char → List (List Char)
  | [], acc => [acc.reverse]
  | c :: rest, acc =>
    if c == sep then acc.reverse :: splitOnCharAux sep rest []
    else splitOnCharAux sep rest (c :: acc)

/-- The apostrophe character, used in several marker words. -/
def apos : Char := Char.ofNat 39

/-- The label Speaker 1 (label A of the specification). -/
def speaker1 : String := "Speaker 1"

/-- The label Speaker 2 (label B of the specification). -/
def speaker2 : String := "Speaker 2"

/-- First-person marker lexicon of the source. -/
def firstPersonWords : List (List Char) :=
  [['i'], ['i', apos, 'm'], ['i', apos, 'v', 'e'], ['i', apos, 'l', 'l'],
   ['m', 'y'], ['m', 'e']]

/-- Second-person marker lexicon of the source. -/
def secondPersonWords : List (List Char) :=
  [['y', 'o', 'u'], ['y', 'o', 'u', apos, 'r', 'e'], ['y', 'o', 'u', apos, 'v', 'e'],
   ['y', 'o', 'u', 'r']]

/-- Agreement marker lexicon of the source. -/
def agreementWords : List (List Char) :=
  [['y', 'e', 's'], ['y', 'e', 'a', 'h'], ['s', 'u', 'r', 'e'],
   ['o', 'k', 'a', 'y'], ['r', 'i', 'g', 'h', 't'],
   ['e', 'x', 'a', 'c', 't', 'l', 'y']]

/-- Disagreement marker lexicon of the source. -/
def disagreementWords : List (List Char) :=
  [['n', 'o'], ['n', 'o', 'p', 'e'], ['n', 'o', 't'],
   ['d', 'o', 'n', apos, 't'], ['d', 'o', 'e', 's', 'n', apos, 't']]

/-- Does any space-separated lowercased word of the trimmed sentence belong
to the marker list; models `words.some(w => markers.includes(w))` on
`trimmed.toLowerCase().split(' ')`. -/
def hasWordIn (markers : List (List Char)) (trimmed : List Char) : Bool :=
  (splitOnCharAux ' ' (trimmed.map Char.toLower) []).any (fun w => markers.contains w)

/-- The speaker flip used by the source ternaries. -/
def flipOf (s : String) : String := if s == speaker1 then speaker2 else speaker1

/-- Flip relative to the previous segment with JavaScript optional chaining:
an absent previous segment compares unequal to Speaker 1, yielding
Speaker 1. -/
def flipOfPrev (prev : Option (String × List Char)) : String :=
  match prev with
  | some p => flipOf p.1
  | none => speaker1

/-- Speaker choice of `performDiarization` for a sentence at index > 0,
translated rule for rule (the source reads the previous segment from the
already diarized list; `cur` is the running `currentSpeaker`, which at every
reachable call equals the previous segment label). -/
def codeNextSpeaker (diarized : List (String × List Char)) (cur : String)
    (trimmed : List Char) : String :=
  if (match diarized.getLast? with | some p => p.2.contains '?' | none => false) then
    flipOfPrev diarized.getLast?
  else if hasWordIn agreementWords trimmed || hasWordIn disagreementWords trimmed then
    flipOfPrev diarized.getLast?
  else if hasWordIn firstPersonWords trimmed && !(hasWordIn secondPersonWords trimmed) then
    cur
  else if hasWordIn secondPersonWords trimmed && !(hasWordIn firstPersonWords trimmed) then
    flipOfPrev diarized.getLast?
  else if decide (2 ≤ (diarized.filter (fun d => d.1 == cur)).length) &&
      (diarized.drop (diarized.length - 2)).all (fun d => d.1 == cur) then
    flipOf cur
  else
    cur

/-- The sentence loop of `performDiarization`: index counter, running
`currentSpeaker` and accumulated segments; sentences whose trim is empty are
skipped (unreachable after the filter, kept for fidelity). -/
def diarizeAux : List (List Char) → Nat → String → List (String × List Char) →
    List (String × List Char)
  | [], _, _, diarized => diarized
  | s :: rest, index, cur, diarized =>
    if (trimChars s).isEmpty then
      diarizeAux rest (index + 1) cur diarized
    else
      let spk := if index == 0 then speaker1 else codeNextSpeaker diarized cur (trimChars s)
      diarizeAux rest (index + 1) spk (diarized ++ [(spk, trimChars s)])

/-- Sentence list fed to the loop: the regex split followed by the filter
dropping fragments with an empty trim. -/
def sentencesOf (transcript : String) : List (List Char) :=
  (splitSentencesAux transcript.data [] false).filter (fun s => !(trimChars s).isEmpty)

/-- The speaker attribution engine, translated from `performDiarization` in
the conversation route. -/
def performDiarization (transcript : String) : List (String × String) :=
  (diarizeAux (sentencesOf transcript) 0 speaker1 []).map (fun p => (p.1, String.mk p.2))

/-- Modelled from the claim wording: rule (a) flips when the previous
segment ENDS in a question mark; all other rules as the claim orders them,
with rule (e) requiring the current label on the two immediately preceding
segments. -/
def specNextLabel (diarized : List (String × List Char)) (cur : String)
    (trimmed : List Char) : String :=
  if (match diarized.getLast? with | some p => p.2.getLast? == some '?' | none => false) then
    flipOf cur
  else if hasWordIn agreementWords trimmed || hasWordIn disagreementWords trimmed then
    flipOf cur
  else if hasWordIn firstPersonWords trimmed && !(hasWordIn secondPersonWords trimmed) then
    cur
  else if hasWordIn secondPersonWords trimmed && !(hasWordIn firstPersonWords trimmed) then
    flipOf cur
  else if decide (2 ≤ diarized.length) &&
      (diarized.drop (diarized.length - 2)).all (fun d => d.1 == cur) then
    flipOf cur
  else
    cur

/-- The amended rule set: identical to `specNextLabel` except that rule (a)
tests whether the previous segment CONTAINS a question mark, as the source
does. -/
def specNextLabelAmended (diarized : List (String × List Char)) (cur : String)
    (trimmed : List Char) : String :=
  if (match diarized.getLast? with | some p => p.2.contains '?' | none => false) then
    flipOf cur
  else if hasWordIn agreementWords trimmed || hasWordIn disagreementWords trimmed then
    flipOf cur
  else if hasWordIn firstPersonWords trimmed && !(hasWordIn secondPersonWords trimmed) then
    cur
  else if hasWordIn secondPersonWords trimmed && !(hasWordIn firstPersonWords trimmed) then
    flipOf cur
  else if decide (2 ≤ diarized.length) &&
      (diarized.drop (diarized.length - 2)).all (fun d => d.1 == cur) then
    flipOf cur
  else
    cur

/-- Attribution loop following the claim wording: first sentence gets label
A, each subsequent sentence is decided by the rule function. -/
def specAux (next : List (String × List Char) → String → List Char → String) :
    List (List Char) → Bool → String → List (String × List Char) →
    List (String × List Char)
  | [], _, _, diarized => diarized
  | s :: rest, isFirst, cur, diarized =>
    let spk := if isFirst then speaker1 else next diarized cur (trimChars s)
    specAux next rest false spk (diarized ++ [(spk, trimChars s)])

/-- The attribution function exactly as the claim words it (rule (a) =
ends in a question mark). -/
def attributeSpec (transcript : String) : List (String × String) :=
  (specAux specNextLabel (sentencesOf transcript) true speaker1 []).map
    (fun p => (p.1, String.mk p.2))

/-- The attribution function with the amended rule (a) (contains a question
mark). -/
def attributeSpecAmended (transcript : String) : List (String × String) :=
  (specAux specNextLabelAmended (sentencesOf transcript) true speaker1 []).map
    (fun p => (p.1, String.mk p.2))

lemma filter_two_cond (l : List (String × List Char)) (cur : String) :
    (decide (2 ≤ (l.filter (fun d => d.1 == cur)).length) &&
      (l.drop (l.length - 2)).all (fun d => d.1 == cur)) =
    (decide (2 ≤ l.length) &&
      (l.drop (l.length - 2)).all (fun d => d.1 == cur)) := by
  cases hall : (l.drop (l.length - 2)).all (fun d => d.1 == cur) with
  | false => simp
  | true =>
    simp only [Bool.and_true]
    rw [decide_eq_decide]
    constructor
    · intro h2
      exact le_trans h2 (List.length_filter_le _ _)
    · intro h2
      have hdroplen : (l.drop (l.length - 2)).length = 2 := by
        rw [List.length_drop]
        omega
      have hfilterdrop :
          (l.drop (l.length - 2)).filter (fun d => d.1 == cur) = l.drop (l.length - 2) :=
        List.filter_eq_self.mpr (List.all_eq_true.mp hall)
      calc 2 = ((l.drop (l.length - 2)).filter (fun d => d.1 == cur)).length := by
              rw [hfilterdrop, hdroplen]
        _ ≤ (l.filter (fun d => d.1 == cur)).length := by
              conv_rhs => rw [← List.take_append_drop (l.length - 2) l]
              rw [List.filter_append, List.length_append]
              omega

lemma codeNext_eq_specNext (diarized : List (String × List Char)) (cur : String)
    (trimmed : List Char) (p : String × List Char)
    (hlast : diarized.getLast? = some p) (hcur : p.1 = cur) :
    codeNextSpeaker diarized cur trimmed = specNextLabelAmended diarized cur trimmed := by
  unfold codeNextSpeaker specNextLabelAmended
  rw [hlast, filter_two_cond]
  simp only [flipOfPrev, hcur]

lemma diarizeAux_eq_specAux (ss : List (List Char)) :
    ∀ (index : Nat) (cur : String) (diarized : List (String × List Char)),
      (∀ s ∈ ss, (trimChars s).isEmpty = false) →
      (index ≠ 0 → ∃ p, diarized.getLast? = some p ∧ p.1 = cur) →
      diarizeAux ss index cur diarized =
        specAux specNextLabelAmended ss (index == 0) cur diarized := by
  induction ss with
  | nil =>
    intro index cur diarized _ _
    rfl
  | cons s rest ih =>
    intro index cur diarized hne hinv
    have hs : (trimChars s).isEmpty = false := hne s (by simp)
    have hne' : ∀ u ∈ rest, (trimChars u).isEmpty = false :=
      fun u hu => hne u (by simp [hu])
    by_cases hidx : index = 0
    · subst hidx
      show diarizeAux (s :: rest) 0 cur diarized = _
      simp only [diarizeAux, specAux, hs, Bool.false_eq_true, if_false]
      have hinv' : (0 : Nat) + 1 ≠ 0 → ∃ p,
          (diarized ++ [(speaker1, trimChars s)]).getLast? = some p ∧ p.1 = speaker1 := by
        intro _
        exact ⟨(speaker1, trimChars s), List.getLast?_concat diarized, rfl⟩
      have hrec := ih (0 + 1) speaker1 (diarized ++ [(speaker1, trimChars s)]) hne' hinv'
      simpa using hrec
    · obtain ⟨p, hlast, hcur⟩ := hinv hidx
      have hbeq : (index == 0) = false := by
        simp [hidx]
      simp only [diarizeAux, specAux, hs, Bool.false_eq_true, if_false, hbeq,
        codeNext_eq_specNext diarized cur (trimChars s) p hlast hcur]
      have hinv' : index + 1 ≠ 0 → ∃ q,
          (diarized ++ [(specNextLabelAmended diarized cur (trimChars s), trimChars s)]).getLast? =
            some q ∧ q.1 = specNextLabelAmended diarized cur (trimChars s) := by
        intro _
        exact ⟨_, List.getLast?_concat diarized, rfl⟩
      have hrec := ih (index + 1) (specNextLabelAmended diarized cur (trimChars s))
        (diarized ++ [(specNextLabelAmended diarized cur (trimChars s), trimChars s)]) hne' hinv'
      simpa using hrec

/-- C3 counterexample: on the transcript `What?! Hello there.` the first
segment contains a question mark but ends in an exclamation mark; the source
flips to Speaker 2 (rule (a) tests containment), while the claimed rule
chain, whose rule (a) tests only the final character, keeps Speaker 1. -/
theorem C3_rule_a_counterexample :
    performDiarization "What?! Hello there." =
      [(speaker1, "What?!"), (speaker2, "Hello there.")] ∧
    attributeSpec "What?! Hello there." =
      [(speaker1, "What?!"), (speaker1, "Hello there.")] ∧
    performDiarization "What?! Hello there." ≠ attributeSpec "What?! Hello there." := by
  refine ⟨by decide, by decide, by decide⟩

/-- C3 (amended). The Speaker Attribution Engine splits on sentence-terminal
punctuation followed by whitespace, discards empty fragments, assigns the
first sentence to label A, and for each subsequent sentence applies exactly
the claimed rule precedence with rule (a) amended to: flip if the previous
segment CONTAINS a question mark (the source tests `includes`, not the final
character). Formally the translated source function agrees with the
rule-chain function `attributeSpecAmended` on every transcript. -/
theorem C3_rule_precedence_amended (t : String) :
    performDiarization t = attributeSpecAmended t := by
  unfold performDiarization attributeSpecAmended
  have h := diarizeAux_eq_specAux (sentencesOf t) 0 speaker1 []
    (by
      intro s hs
      unfold sentencesOf at hs
      have := List.of_mem_filter hs
      simpa using this)
    (by intro h0; exact absurd rfl h0)
  rw [h]
  rfl

/-- C4. On the transcript `Is this ready? Yes it is. I will send it
tomorrow.` the engine returns exactly three segments labelled A, B, B
(Speaker 1, Speaker 2, Speaker 2): the question flips segment 2, and the
first-person rule keeps segment 3 with Speaker 2. -/
theorem C4_example_transcript :
    performDiarization "Is this ready? Yes it is. I will send it tomorrow." =
      [(speaker1, "Is this ready?"), (speaker2, "Yes it is."),
       (speaker2, "I will send it tomorrow.")] := by
  decide

lemma dropWhile_eq_nil_of_all {p : Char → Bool} (l : List Char)
    (h : ∀ c ∈ l, p c = true) : l.dropWhile p = [] := by
  induction l with
  | nil => rfl
  | cons c cs ih =>
    rw [List.dropWhile_cons, if_pos (h c (by simp))]
    exact ih (fun c hc => h c (by simp [hc]))

lemma sentenceTerm_false_of_ws (c : Char) (h : c.isWhitespace = true) :
    sentenceTerm c = false := by
  unfold sentenceTerm
  by_cases h1 : c = '.'
  · subst h1
    exact absurd h (by decide)
  by_cases h2 : c = '!'
  · subst h2
    exact absurd h (by decide)
  by_cases h3 : c = '?'
  · subst h3
    exact absurd h (by decide)
  simp [h1, h2, h3]

lemma matchTerm_false (acc : List Char) :
    (∀ c ∈ acc, c.isWhitespace = true) →
    (match acc with | p :: _ => sentenceTerm p | [] => false) = false := by
  cases acc with
  | nil => intro _; rfl
  | cons p ps =>
    intro h
    exact sentenceTerm_false_of_ws p (h p (by simp))

lemma splitAux_all_ws (cs : List Char) :
    ∀ acc, (∀ c ∈ cs, c.isWhitespace = true) → (∀ c ∈ acc, c.isWhitespace = true) →
      splitSentencesAux cs acc false = [acc.reverse ++ cs] := by
  induction cs with
  | nil =>
    intro acc _ _
    simp [splitSentencesAux]
  | cons c rest ih =>
    intro acc hcs hacc
    have hcw : c.isWhitespace = true := hcs c (by simp)
    have hrest : ∀ u ∈ rest, u.isWhitespace = true := fun u hu => hcs u (by simp [hu])
    have hacc' : ∀ u ∈ c :: acc, u.isWhitespace = true := by
      intro u hu
      rcases List.mem_cons.mp hu with h1 | h2
      · rw [h1]; exact hcw
      · exact hacc u h2
    unfold splitSentencesAux
    rw [matchTerm_false acc hacc]
    simp only [Bool.false_and, Bool.and_false, Bool.false_eq_true, if_false]
    rw [ih (c :: acc) hrest hacc']
    simp

lemma trimChars_nil_of_ws (cs : List Char) (h : ∀ c ∈ cs, c.isWhitespace = true) :
    trimChars cs = [] := by
  unfold trimChars
  rw [dropWhile_eq_nil_of_all cs h]
  rfl

/-- C10. For every input string with no non-whitespace content (the empty
string or whitespace only) the Speaker Attribution Engine returns the empty
segment sequence. Totality (the claim that the engine never throws on any
input string) holds by construction: `performDiarization` is a total Lean
function over all of `String`. -/
theorem C10_whitespace_empty (s : String) (h : ∀ c ∈ s.data, c.isWhitespace = true) :
    performDiarization s = [] := by
  unfold performDiarization sentencesOf
  rw [splitAux_all_ws s.data [] h (by intro c hc; cases hc)]
  have htrim : trimChars s.data = [] := trimChars_nil_of_ws s.data h
  simp [htrim, diarizeAux]

/-- Witness for C10: a three-character whitespace string yields no
segments. -/
theorem C10_whitespace_empty_witness :
    (∀ c ∈ (" \t " : String).data, c.isWhitespace = true) ∧
    performDiarization " \t " = [] :=
  ⟨by decide, C10_whitespace_empty " \t " (by decide)⟩

/-! ## Document analysis route (src/app/api/analyze/document/route.ts) -/

/-- JavaScript toLowerCase over the character list (ASCII case folding). -/
def jsToLower (s : String) : String := String.mk (s.data.map Char.toLower)

/-- JavaScript String.endsWith. -/
def jsEndsWith (s suffix : String) : Bool :=
  s.data.drop (s.data.length - suffix.data.length) == suffix.data

/-- JavaScript String.startsWith. -/
def jsStartsWith (s pre : String) : Bool :=
  s.data.take pre.data.length == pre.data

/-- JavaScript String.slice(0, n). -/
def jsTake (s : String) (n : Nat) : String := String.mk (s.data.take n)

/-- JavaScript String.length (code units; identical to the character count
for the inputs considered here). -/
def jsLength (s : String) : Nat := s.data.length

/-- JavaScript String.trim as a String function. -/
def jsTrim (s : String) : String := String.mk (trimChars s.data)

/-- A thrown JavaScript error as observed by the catch blocks: optional
HTTP-like status, optional error code, message. -/
structure JsError where
  status : Option Nat := none
  code : Option String := none
  message : String := ""
deriving DecidableEq, Repr

/-- The JSON responses produced by the route, flattened to the fields the
handlers set. `headers` holds the explicitly attached response headers;
the `timestamp` field of `errorResponse` (a wall-clock reading) is omitted.
`retryAfterBody` is the retryAfter value embedded in a response body. -/
structure Response where
  status : Nat
  headers : List (String × String) := []
  error : Option String := none
  summary : Option String := none
  description : Option String := none
  fileName : Option String := none
  remainingRequests : Option Int := none
  retryAfterBody : Option Nat := none
deriving DecidableEq, Repr

/-- The `errorResponse` helper of the route. -/
def errorResponse (message : String) (status : Nat) : Response :=
  { status := status, error := some message }

/-- The success payload of the document route. -/
def successResponse (summary fileName : String) (rl : AdmitResult) : Response :=
  { status := 200, summary := some summary, fileName := some fileName,
    remainingRequests := some rl.remaining }

/-- Outcome of the axios fetch plus cheerio text extraction in
`extractTextFromUrl`; on success `bodyText` is the visible body text the
external libraries produce. -/
inductive UrlFetchOutcome where
  | success (bodyText : String)
  | connRefused
  | notFound
  | failure
deriving DecidableEq, Repr

/-- Whitespace-run collapsing, modelling `replace(/\s+/g, ' ')`. -/
def collapseWsAux : List Char → Bool → List Char
  | [], _ => []
  | c :: rest, inWs =>
    if c.isWhitespace then
      if inWs then collapseWsAux rest true
      else ' ' :: collapseWsAux rest true
    else c :: collapseWsAux rest false

/-- `extractTextFromUrl` of the route: the network call and DOM stripping
are the oracle; the error mapping and the collapse/trim/slice pipeline are
translated from the source. -/
def extractTextFromUrl (fetch : UrlFetchOutcome) : Except String String :=
  match fetch with
  | UrlFetchOutcome.success body =>
      Except.ok (jsTake (String.mk (trimChars (collapseWsAux body.data false))) 4000)
  | UrlFetchOutcome.connRefused => Except.error "Cannot connect to the URL"
  | UrlFetchOutcome.notFound => Except.error "URL not found"
  | UrlFetchOutcome.failure => Except.error "Failed to fetch URL content"

/-- `extractTextFromDoc` of the route: mammoth is the oracle; a parse
failure is rethrown with the fixed message. -/
def extractTextFromDoc (mammoth : Except Unit String) : Except JsError String :=
  match mammoth with
  | Except.ok v => Except.ok (jsTake v 4000)
  | Except.error _ => Except.error { message := "Failed to parse Word document" }

/-- Characters the platform URL parser accepts inside a scheme. -/
def schemeChar (c : Char) : Bool :=
  c.isAlpha || c.isDigit || c == '+' || c == '-' || c == '.'

/-- Model of the platform `URL` constructor (a JavaScript built-in, not
repository code): parsing succeeds when the string starts with a scheme (a
letter followed by scheme characters) and a colon; `protocol` is the
lowercased scheme including the colon. `none` models the constructor
throwing. -/
def urlProtocol (url : String) : Option String :=
  match url.data.takeWhile (fun c => !(c == ':')) with
  | [] => none
  | c :: cs =>
    if (c :: cs).length == url.data.length then none
    else if c.isAlpha && (c :: cs).all schemeChar then
      some (String.mk (((c :: cs).map Char.toLower) ++ [':']))
    else none

/-- Outcome of one `converter(i)` page render inside `convertPDFToImages`:
a result with a readable path, a result without a path (silently skipped),
or a throw (logged and skipped). -/
inductive PageRender where
  | ok (image : String)
  | noPath
  | failed
deriving DecidableEq, Repr

/-- `convertPDFToImages` of the route: `pdfPages` is the `parsePDF` call
giving `numpages` (a throw propagates), `render` the per-page pdf2pic
conversion. The loop walks pages 1..min(pageCount, 5) and keeps the images
of the successful renders in order; `pageCount` is `numpages || 1`. -/
def convertPDFToImages (pdfPages : Except JsError Nat) (render : Nat → PageRender) :
    Except JsError (List String × Nat) :=
  match pdfPages with
  | Except.error e => Except.error e
  | Except.ok numpages =>
    let pageCount := if numpages == 0 then 1 else numpages
    let maxPages := min pageCount 5
    let images := (List.range maxPages).filterMap (fun k =>
      match render (k + 1) with
      | PageRender.ok img => some img
      | PageRender.noPath => none
      | PageRender.failed => none)
    Except.ok (images, pageCount)

/-- Page header of each per-page analysis block. -/
def pageHeader (i : Nat) (body : String) : String :=
  "**Page " ++ toString (i + 1) ++ ":**\n" ++ body

/-- The per-page analysis loop of `analyzePDFImages`: each vision call may
throw (propagated); a null completion is replaced by the fixed fallback
text. Indices run over 0..n-1 as in the source loop. -/
def pageSummaries (visionPage : Nat → Except JsError (Option String)) :
    List Nat → Except JsError (List String)
  | [] => Except.ok []
  | i :: rest =>
    match visionPage i with
    | Except.error e => Except.error e
    | Except.ok content =>
      match pageSummaries visionPage rest with
      | Except.error e => Except.error e
      | Except.ok tail =>
        Except.ok
          (pageHeader i (content.getD ("Unable to analyze page " ++ toString (i + 1))) :: tail)

/-- `analyzePDFImages` of the route: per-page vision calls, one synthesis
call, and the catch that rewraps an upstream 429 into a fixed message. -/
def analyzePDFImages (visionPage : Nat → Except JsError (Option String))
    (visionFinal : Except JsError (Option String)) (images : List String)
    (fileName : String) (pageCount : Nat) : Except JsError String :=
  let body :=
    match pageSummaries visionPage (List.range images.length) with
    | Except.error e => Except.error e
    | Except.ok summaries =>
      match visionFinal with
      | Except.error e => Except.error e
      | Except.ok content =>
        Except.ok
          ("**Document:** " ++ fileName ++ " (" ++ toString pageCount ++
           " pages total, analyzed " ++ toString images.length ++ " pages)\n\n" ++
           content.getD "Unable to generate overall summary" ++
           "\n\n---\n\n**Detailed Page Analysis:**\n\n" ++
           String.intercalate "\n\n" summaries)
  match body with
  | Except.error e =>
    if e.status == some 429 then
      Except.error { message := "API rate limit exceeded. Please wait a moment and try again." }
    else
      Except.error e
  | Except.ok s => Except.ok s

/-- An uploaded file as the route observes it (content arrives through the
oracles). -/
structure DocFile where
  name : String
  size : Nat
deriving DecidableEq, Repr

/-- A document request: the two limiter-relevant headers, the `type` field,
and the `url` or `document` form entries. -/
structure DocRequest where
  xForwardedFor : Option String
  xRealIp : Option String
  typ : Option String
  url : Option String
  file : Option DocFile

/-- Oracle bundle for the document route: outcomes of every external call
the handler can make. `pdfText` models the `parsePDF` text extraction (both
fallback call sites read the same buffer, hence one outcome). -/
structure DocOracles where
  urlFetch : UrlFetchOutcome
  mammoth : Except Unit String
  textDecode : String
  fileMime : String
  apiKeyConfigured : Bool
  pdfPages : Except JsError Nat
  pageRender : Nat → PageRender
  pdfText : Except JsError String
  visionPage : Nat → Except JsError (Option String)
  visionFinal : Except JsError (Option String)
  chatPdfFallback : Except JsError (Option String)
  chatPdfCatch : Except JsError (Option String)
  chatPlain : Except JsError (Option String)

/-- The pdfError catch block: retry text extraction; summarize when above
the threshold, otherwise return the descriptive failure; any throw inside
this recovery yields the fixed inner-catch error. -/
def pdfCatch (ora : DocOracles) (pdfError : JsError) : Except Response String :=
  match ora.pdfText with
  | Except.ok txt =>
    let textContent := jsTake txt 8000
    if 50 < jsLength textContent then
      match ora.chatPdfCatch with
      | Except.ok content => Except.ok (content.getD "Unable to generate summary")
      | Except.error _ =>
        Except.error (errorResponse
          "Unable to process this PDF. It may contain only images or be corrupted." 400)
    else
      Except.error (errorResponse ("PDF processing failed: " ++ pdfError.message) 400)
  | Except.error _ =>
    Except.error (errorResponse
      "Unable to process this PDF. It may contain only images or be corrupted." 400)

/-- The PDF branch of the processing block: convert to images; with at least
one image run the vision analysis, otherwise fall back to text extraction;
below the 50-character threshold the branch COMPLETES with the fixed
placeholder summary (a success), it does not fail. Throws anywhere in the
branch land in `pdfCatch`. -/
def processPdf (ora : DocOracles) (fileName : String) : Except Response String :=
  match convertPDFToImages ora.pdfPages ora.pageRender with
  | Except.ok (images, pageCount) =>
    if 0 < images.length then
      match analyzePDFImages ora.visionPage ora.visionFinal images fileName pageCount with
      | Except.ok s => Except.ok s
      | Except.error e => pdfCatch ora e
    else
      match ora.pdfText with
      | Except.ok txt =>
        let textContent := jsTake txt 8000
        if 50 < jsLength textContent then
          match ora.chatPdfFallback with
          | Except.ok content =>
            Except.ok ("Note: This summary is based on extracted text only.\n\n" ++
              content.getD "Unable to generate summary")
          | Except.error e => pdfCatch ora e
        else
          Except.ok ("Unable to process PDF \"" ++ fileName ++
            "\". The document may be image-based or corrupted.")
      | Except.error e => pdfCatch ora e
  | Except.error e => pdfCatch ora e

/-- The apiError catch of the processing block. -/
def apiErrorResponse (e : JsError) : Response :=
  if e.status == some 401 then
    errorResponse "Invalid OpenAI API key. Please check your configuration." 401
  else if e.status == some 429 then
    { errorResponse "OpenAI API rate limit exceeded. Please wait a moment and try again." 429
      with retryAfterBody := some 60 }
  else if e.status == some 503 then
    errorResponse "OpenAI service is temporarily unavailable. Please try again later." 503
  else
    errorResponse
      ("API Error: " ++ (if e.message.isEmpty then "Unknown error occurred" else e.message)) 500

/-- API-key gate and processing block shared by all extraction branches. -/
def afterExtraction (ora : DocOracles) (rl : AdmitResult) (isPDF : Bool)
    (textContent fileName : String) : Response :=
  if !ora.apiKeyConfigured then
    errorResponse
      "OpenAI API key not configured. Please add your API key to the environment variables." 500
  else if isPDF then
    match processPdf ora fileName with
    | Except.error resp => resp
    | Except.ok summary => successResponse summary fileName rl
  else if jsLength (jsTrim textContent) < 10 then
    errorResponse "No meaningful content found to summarize" 400
  else
    match ora.chatPlain with
    | Except.error e => apiErrorResponse e
    | Except.ok content => successResponse (content.getD "Unable to generate summary") fileName rl

/-- Body of the document POST handler after admission, translated branch
for branch from the source. -/
def documentPOSTBody (req : DocRequest) (ora : DocOracles) (rl : AdmitResult) : Response :=
  if (match req.typ with
      | none => true
      | some t => !(t == "file" || t == "url")) then
    errorResponse "Invalid request type. Must be \"file\" or \"url\"." 400
  else if req.typ == some "url" then
    match req.url with
    | none => errorResponse "No URL provided" 400
    | some u =>
      match urlProtocol u with
      | none => errorResponse "Invalid URL format" 400
      | some p =>
        if !(p == "http:" || p == "https:") then
          errorResponse "Invalid URL protocol. Only HTTP and HTTPS are supported." 400
        else
          match extractTextFromUrl ora.urlFetch with
          | Except.error msg => errorResponse ("Failed to fetch URL: " ++ msg) 400
          | Except.ok text => afterExtraction ora rl false text u
  else
    match req.file with
    | none => errorResponse "No file provided" 400
    | some f =>
      if 10 * 1024 * 1024 < f.size then
        errorResponse "File too large. Maximum size is 10MB." 400
      else if jsEndsWith (jsToLower f.name) ".pdf" then
        afterExtraction ora rl true "" f.name
      else if jsEndsWith (jsToLower f.name) ".doc" || jsEndsWith (jsToLower f.name) ".docx" then
        match extractTextFromDoc ora.mammoth with
        | Except.error e => errorResponse ("Failed to parse file: " ++ e.message) 400
        | Except.ok v => afterExtraction ora rl false v f.name
      else if jsEndsWith (jsToLower f.name) ".txt" || jsEndsWith (jsToLower f.name) ".md" ||
          jsEndsWith (jsToLower f.name) ".csv" || jsEndsWith (jsToLower f.name) ".log" then
        afterExtraction ora rl false (jsTake ora.textDecode 4000) f.name
      else if jsStartsWith ora.fileMime "text/" then
        afterExtraction ora rl false (jsTake ora.textDecode 4000) f.name
      else
        errorResponse "Unsupported file type. Supported: PDF, DOC, DOCX, TXT, MD, CSV, LOG" 400

/-- JavaScript String(x) on the optional retryAfter value. -/
def jsString (v : Option Nat) : String :=
  match v with
  | some n => toString n
  | none => "undefined"

/-- The document POST handler: admission against the heavy limiter over the
shared store, the 429 response with its four headers on rejection, the body
otherwise. `Date.toISOString` is modelled as the decimal rendering of the
epoch timestamp (an injective timestamp rendering). -/
def documentPOST (req : DocRequest) (ora : DocOracles) (σ : Store) (now : Nat) :
    Response × Store :=
  let id := resolveIdentifier none req.xForwardedFor req.xRealIp
  let p := rateLimitStep heavyConfig now σ id
  if p.1.allowed then
    (documentPOSTBody req ora p.1, p.2)
  else
    ({ status := 429,
       error := some "Too many requests. Please try again later.",
       retryAfterBody := p.1.retryAfter,
       headers := [("Retry-After", jsString p.1.retryAfter),
                   ("X-RateLimit-Limit", "5"),
                   ("X-RateLimit-Remaining", toString p.1.remaining),
                   ("X-RateLimit-Reset", toString p.1.resetTime)] }, p.2)

/-! ## Image analysis route -/

/-- The uploaded image file as the route observes it. -/
structure ImageFile where
  name : String
  mime : String
  size : Nat
deriving DecidableEq, Repr

/-- Oracles of the image route: the API key flag and the single vision
call. -/
structure ImageOracles where
  apiKeyConfigured : Bool
  vision : Except JsError (Option String)

/-- MIME allow-list of the image route. -/
def validImageTypes : List String :=
  ["image/jpeg", "image/jpg", "image/png", "image/gif", "image/webp"]

/-- Demo-mode description returned without an API key. The long source
template is abbreviated to its distinctive head; its exact wording (which
embeds a floating-point size rendering, approximated here by integer
division) is immaterial to every claim. -/
def demoDescription (f : ImageFile) : String :=
  "Image Analysis (Demo Mode): " ++ f.mime ++ " " ++ toString (f.size / 1024) ++ " KB"

/-- Fallback description for the model-not-found branch (abbreviated). -/
def modelNotFoundDescription (f : ImageFile) : String :=
  "Image uploaded successfully: " ++ f.name

/-- Generic fallback description (abbreviated). -/
def unavailableDescription (f : ImageFile) : String :=
  "Image received: " ++ f.name

/-- The image POST handler. The source performs no admission check and
never references any limiter, so the shared store passes through untouched
in every branch and no response carries rate-limit headers. -/
def imagePOST (file : Option ImageFile) (ora : ImageOracles) (σ : Store) :
    Response × Store :=
  match file with
  | none => (errorResponse "No image file provided" 400, σ)
  | some f =>
    if !(validImageTypes.contains f.mime) then
      (errorResponse "Invalid file type. Please upload an image (JPG, PNG, GIF, or WebP)" 400, σ)
    else if 20 * 1024 * 1024 < f.size then
      (errorResponse "Image too large. Please upload an image smaller than 20MB" 400, σ)
    else if ora.apiKeyConfigured then
      match ora.vision with
      | Except.ok content =>
        ({ status := 200, description := some (content.getD "Unable to analyze image") }, σ)
      | Except.error e =>
        if e.status == some 401 then
          (errorResponse "Invalid OpenAI API key. Please check your configuration." 500, σ)
        else if e.status == some 429 then
          (errorResponse "API rate limit exceeded. Please try again later." 429, σ)
        else if e.code == some "model_not_found" then
          ({ status := 200, description := some (modelNotFoundDescription f) }, σ)
        else
          ({ status := 200, description := some (unavailableDescription f) }, σ)
    else
      ({ status := 200, description := some (demoDescription f) }, σ)

/-! ## Claims about the document and image routes -/

/-- C7. For every PDF whose structure parses, the image-rendering extractor
returns at most 5 page images regardless of the page count, reports the
parsed page count whenever it is at least 1 (a 12-page PDF yields at most 5
images and pageCount 12), and a failing page render is skipped without
failing the batch: every page in range whose render succeeds contributes
its image to the result. -/
theorem C7_pdf_render_cap (pdfPages : Except JsError Nat) (render : Nat → PageRender)
    (n : Nat) (hpages : pdfPages = Except.ok n)
    (images : List String) (pageCount : Nat)
    (hres : convertPDFToImages pdfPages render = Except.ok (images, pageCount)) :
    images.length ≤ 5 ∧
    (1 ≤ n → pageCount = n) ∧
    (∀ j img, 1 ≤ j → j ≤ min pageCount 5 → render j = PageRender.ok img → img ∈ images) := by
  subst hpages
  unfold convertPDFToImages at hres
  simp only [Except.ok.injEq, Prod.mk.injEq] at hres
  obtain ⟨himg, hpc⟩ := hres
  subst himg
  subst hpc
  refine ⟨?_, ?_, ?_⟩
  · calc ((List.range (min (if n == 0 then 1 else n) 5)).filterMap _).length
        ≤ (List.range (min (if n == 0 then 1 else n) 5)).length :=
          List.length_filterMap_le _ _
      _ ≤ 5 := by
          rw [List.length_range]
          exact min_le_right _ _
  · intro hn
    have : (n == 0) = false := by
      simp only [beq_eq_false_iff_ne, ne_eq]
      omega
    rw [this]
    simp
  · intro j img hj1 hj2 hrender
    apply List.mem_filterMap.mpr
    refine ⟨j - 1, ?_, ?_⟩
    · apply List.mem_range.mpr
      omega
    · have hj : j - 1 + 1 = j := by omega
      rw [hj, hrender]

/-- Witness for C7: a 12-page document whose third page render throws
yields 4 images out of the 5 attempted, reports pageCount 12, and page 1's
image is in the batch. -/
theorem C7_pdf_render_cap_witness :
    (Except.ok 12 : Except JsError Nat) = Except.ok 12 ∧
    convertPDFToImages (Except.ok 12)
      (fun i => if i == 3 then PageRender.failed else PageRender.ok (toString i)) =
      Except.ok (["1", "2", "4", "5"], 12) ∧
    (["1", "2", "4", "5"] : List String).length ≤ 5 ∧
    (1 ≤ 12 → (12 : Nat) = 12) ∧
    (∀ j img, 1 ≤ j → j ≤ min 12 5 →
      (fun i => if i == 3 then PageRender.failed else PageRender.ok (toString i)) j =
        PageRender.ok img → img ∈ (["1", "2", "4", "5"] : List String)) := by
  refine ⟨rfl, rfl, ?_⟩
  exact C7_pdf_render_cap (Except.ok 12)
    (fun i => if i == 3 then PageRender.failed else PageRender.ok (toString i)) 12 rfl
    ["1", "2", "4", "5"] 12 rfl

lemma documentPOST_allowed (req : DocRequest) (ora : DocOracles) (σ : Store) (now : Nat)
    (h : (rateLimitStep heavyConfig now σ
      (resolveIdentifier none req.xForwardedFor req.xRealIp)).1.allowed = true) :
    documentPOST req ora σ now =
      (documentPOSTBody req ora
        (rateLimitStep heavyConfig now σ
          (resolveIdentifier none req.xForwardedFor req.xRealIp)).1,
       (rateLimitStep heavyConfig now σ
         (resolveIdentifier none req.xForwardedFor req.xRealIp)).2) := by
  unfold documentPOST
  simp [h]

lemma documentPOST_rejected (req : DocRequest) (ora : DocOracles) (σ : Store) (now : Nat)
    (h : (rateLimitStep heavyConfig now σ
      (resolveIdentifier none req.xForwardedFor req.xRealIp)).1.allowed = false) :
    documentPOST req ora σ now =
      ({ status := 429,
         error := some "Too many requests. Please try again later.",
         retryAfterBody := (rateLimitStep heavyConfig now σ
           (resolveIdentifier none req.xForwardedFor req.xRealIp)).1.retryAfter,
         headers := [("Retry-After", jsString ((rateLimitStep heavyConfig now σ
             (resolveIdentifier none req.xForwardedFor req.xRealIp)).1.retryAfter)),
           ("X-RateLimit-Limit", "5"),
           ("X-RateLimit-Remaining", toString ((rateLimitStep heavyConfig now σ
             (resolveIdentifier none req.xForwardedFor req.xRealIp)).1.remaining)),
           ("X-RateLimit-Reset", toString ((rateLimitStep heavyConfig now σ
             (resolveIdentifier none req.xForwardedFor req.xRealIp)).1.resetTime))] },
       (rateLimitStep heavyConfig now σ
         (resolveIdentifier none req.xForwardedFor req.xRealIp)).2) := by
  unfold documentPOST
  simp [h]

/-- C6 counterexample: the four limiter configurations are NOT tracked
independently, because all four closures share the single module-level
`requestLogs` map. After exhausting the heavy budget (5 calls) for one
identifier, a first call judged against the image configuration finds the
same window already at count 5: it reports `remaining = 4` instead of the
`remaining = 9` that an independent image window would report on its first
request. -/
theorem C6_shared_store_counterexample :
    ((rateLimitStep imageConfig 0
        (admitSeq heavyConfig "203.0.113.7" [0, 0, 0, 0, 0] emptyStore).2
        "203.0.113.7").1.remaining = 4 ∧
     (rateLimitStep imageConfig 0
        (admitSeq heavyConfig "203.0.113.7" [0, 0, 0, 0, 0] emptyStore).2
        "203.0.113.7").1.remaining ≠ (imageConfig.maxRequests : Int) - 1 ∧
     ((rateLimitStep imageConfig 0
         (admitSeq heavyConfig "203.0.113.7" [0, 0, 0, 0, 0] emptyStore).2
         "203.0.113.7").2 "203.0.113.7") = some ⟨6, 60000⟩) := by
  refine ⟨by decide, by decide, by decide⟩

/-- C6 (amended). Only the document route checks admission, against the
heavy configuration (5 requests per 60 s): its admission-rejected requests
receive status 429 with the four headers `Retry-After`, `X-RateLimit-Limit`,
`X-RateLimit-Remaining`, `X-RateLimit-Reset`. The image route performs no
admission check: it leaves the limiter store untouched and attaches no
headers to any response. The four configurations are not independent: they
share one identifier-to-window store, so a window opened under one
configuration is read and incremented by a step under any other. -/
theorem C6_admission_amended :
    (∀ (req : DocRequest) (ora : DocOracles) (σ : Store) (now : Nat),
       (rateLimitStep heavyConfig now σ
          (resolveIdentifier none req.xForwardedFor req.xRealIp)).1.allowed = false →
       (documentPOST req ora σ now).1.status = 429 ∧
       (documentPOST req ora σ now).1.headers =
         [("Retry-After", jsString ((rateLimitStep heavyConfig now σ
             (resolveIdentifier none req.xForwardedFor req.xRealIp)).1.retryAfter)),
          ("X-RateLimit-Limit", "5"),
          ("X-RateLimit-Remaining", toString ((rateLimitStep heavyConfig now σ
             (resolveIdentifier none req.xForwardedFor req.xRealIp)).1.remaining)),
          ("X-RateLimit-Reset", toString ((rateLimitStep heavyConfig now σ
             (resolveIdentifier none req.xForwardedFor req.xRealIp)).1.resetTime))]) ∧
    (∀ (file : Option ImageFile) (ora : ImageOracles) (σ : Store),
       (imagePOST file ora σ).2 = σ ∧ (imagePOST file ora σ).1.headers = []) ∧
    (∀ (cfg cfg' : RateLimitConfig) (σ : Store) (id : String) (now : Nat),
       freshAt σ id now → 2 ≤ cfg'.maxRequests →
       (rateLimitStep cfg' now (rateLimitStep cfg now σ id).2 id).2 id =
         some ⟨2, now + cfg.interval⟩ ∧
       (rateLimitStep cfg' now (rateLimitStep cfg now σ id).2 id).1.remaining =
         (cfg'.maxRequests : Int) - 2) := by
  refine ⟨?_, ?_, ?_⟩
  · intro req ora σ now h
    rw [documentPOST_rejected req ora σ now h]
    exact ⟨rfl, rfl⟩
  · intro file ora σ
    cases file with
    | none => exact ⟨rfl, rfl⟩
    | some f =>
      unfold imagePOST
      repeat' split
      all_goals exact ⟨rfl, rfl⟩
  · intro cfg cfg' σ id now hfresh hmax
    have hstep1 : rateLimitStep cfg now σ id = freshStep cfg now σ id :=
      rateLimitStep_of_fresh cfg now σ id hfresh
    have hσ1 : (rateLimitStep cfg now σ id).2 id = some ⟨1, now + cfg.interval⟩ := by
      rw [hstep1]
      exact updateStore_same σ id _
    have hopen : ¬ (RequestLog.mk 1 (now + cfg.interval)).resetTime < now := by
      simp
    have hstep2 := rateLimitStep_increment cfg' now (rateLimitStep cfg now σ id).2 id
      ⟨1, now + cfg.interval⟩ hσ1 hopen hmax
    rw [hstep2]
    refine ⟨updateStore_same _ id _, ?_⟩
    push_cast
    ring

/-- Witness for C6 (amended): a rejected document request on an exhausted
heavy window gets the 429 response with its four concrete headers; a
concrete image request leaves a concrete store untouched with no headers;
and a heavy-then-image pair of steps lands on one shared window. -/
theorem C6_admission_amended_witness :
    (rateLimitStep heavyConfig 0
       (updateStore emptyStore "anonymous" ⟨5, 60000⟩) "anonymous").1.allowed = false ∧
    ((documentPOST ⟨none, none, some "file", none, none⟩
        ⟨UrlFetchOutcome.failure, Except.error (), "", "", true, Except.error {}, fun _ =>
          PageRender.failed, Except.error {}, fun _ => Except.ok none, Except.ok none,
          Except.ok none, Except.ok none, Except.ok none⟩
        (updateStore emptyStore "anonymous" ⟨5, 60000⟩) 0).1.status = 429 ∧
     (documentPOST ⟨none, none, some "file", none, none⟩
        ⟨UrlFetchOutcome.failure, Except.error (), "", "", true, Except.error {}, fun _ =>
          PageRender.failed, Except.error {}, fun _ => Except.ok none, Except.ok none,
          Except.ok none, Except.ok none, Except.ok none⟩
        (updateStore emptyStore "anonymous" ⟨5, 60000⟩) 0).1.headers =
       [("Retry-After", "60"), ("X-RateLimit-Limit", "5"),
        ("X-RateLimit-Remaining", "0"), ("X-RateLimit-Reset", "60000")]) ∧
    ((imagePOST (some ⟨"cat.png", "image/png", 100⟩)
        ⟨false, Except.ok none⟩ emptyStore).2 = emptyStore ∧
     (imagePOST (some ⟨"cat.png", "image/png", 100⟩)
        ⟨false, Except.ok none⟩ emptyStore).1.headers = []) ∧
    (freshAt emptyStore "a" 0 ∧ 2 ≤ imageConfig.maxRequests ∧
     (rateLimitStep imageConfig 0 (rateLimitStep heavyConfig 0 emptyStore "a").2 "a").2 "a" =
       some ⟨2, 0 + heavyConfig.interval⟩ ∧
     (rateLimitStep imageConfig 0 (rateLimitStep heavyConfig 0 emptyStore "a").2 "a").1.remaining =
       (imageConfig.maxRequests : Int) - 2) := by
  have h := C6_admission_amended
  have hfresh : freshAt emptyStore "a" 0 := fun _ hh => nomatch hh
  have hrej : (rateLimitStep heavyConfig 0
      (updateStore emptyStore "anonymous" ⟨5, 60000⟩) "anonymous").1.allowed = false := by
    decide
  refine ⟨hrej, ?_, ?_, ?_⟩
  · have h1 := h.1 ⟨none, none, some "file", none, none⟩
      ⟨UrlFetchOutcome.failure, Except.error (), "", "", true, Except.error {}, fun _ =>
        PageRender.failed, Except.error {}, fun _ => Except.ok none, Except.ok none,
        Except.ok none, Except.ok none, Except.ok none⟩
      (updateStore emptyStore "anonymous" ⟨5, 60000⟩) 0 hrej
    refine ⟨h1.1, ?_⟩
    rw [h1.2]
    decide
  · exact h.2.1 (some ⟨"cat.png", "image/png", 100⟩) ⟨false, Except.ok none⟩ emptyStore
  · have h3 := h.2.2 heavyConfig imageConfig emptyStore "a" 0 hfresh (by decide)
    exact ⟨hfresh, by decide, h3.1, h3.2⟩

lemma documentPOSTBody_badscheme (req : DocRequest) (ora : DocOracles) (rl : AdmitResult)
    (u p : String) (htyp : req.typ = some "url") (hurl : req.url = some u)
    (hprot : urlProtocol u = some p) (hbad : (p == "http:" || p == "https:") = false) :
    documentPOSTBody req ora rl =
      errorResponse "Invalid URL protocol. Only HTTP and HTTPS are supported." 400 := by
  unfold documentPOSTBody
  rw [htyp, hurl]
  simp [hprot, hbad]

lemma documentPOSTBody_fetchError (req : DocRequest) (ora : DocOracles) (rl : AdmitResult)
    (u p msg : String) (htyp : req.typ = some "url") (hurl : req.url = some u)
    (hprot : urlProtocol u = some p) (hgood : (p == "http:" || p == "https:") = true)
    (hfetch : extractTextFromUrl ora.urlFetch = Except.error msg) :
    documentPOSTBody req ora rl = errorResponse ("Failed to fetch URL: " ++ msg) 400 := by
  unfold documentPOSTBody
  rw [htyp, hurl]
  simp [hprot, hgood, hfetch]

/-- C8. URL submissions whose scheme is not http or https are rejected with
the protocol validation error before any network activity: the response and
the final store do not depend on the fetch outcome at all. For admitted
http/https submissions, the three fetch failure modes surface as three
pairwise distinct error responses (connection refused, not found, generic
failure). -/
theorem C8_url_scheme_and_errors :
    (∀ (req : DocRequest) (ora : DocOracles) (f1 f2 : UrlFetchOutcome) (σ : Store)
       (now : Nat) (u p : String),
       req.typ = some "url" → req.url = some u → urlProtocol u = some p →
       (p == "http:" || p == "https:") = false →
       documentPOST req { ora with urlFetch := f1 } σ now =
         documentPOST req { ora with urlFetch := f2 } σ now ∧
       ((rateLimitStep heavyConfig now σ
           (resolveIdentifier none req.xForwardedFor req.xRealIp)).1.allowed = true →
        (documentPOST req { ora with urlFetch := f1 } σ now).1 =
          errorResponse "Invalid URL protocol. Only HTTP and HTTPS are supported." 400)) ∧
    (∀ (req : DocRequest) (ora : DocOracles) (σ : Store) (now : Nat) (u p : String),
       req.typ = some "url" → req.url = some u → urlProtocol u = some p →
       (p == "http:" || p == "https:") = true →
       (rateLimitStep heavyConfig now σ
          (resolveIdentifier none req.xForwardedFor req.xRealIp)).1.allowed = true →
       (documentPOST req { ora with urlFetch := UrlFetchOutcome.connRefused } σ now).1 =
         errorResponse "Failed to fetch URL: Cannot connect to the URL" 400 ∧
       (documentPOST req { ora with urlFetch := UrlFetchOutcome.notFound } σ now).1 =
         errorResponse "Failed to fetch URL: URL not found" 400 ∧
       (documentPOST req { ora with urlFetch := UrlFetchOutcome.failure } σ now).1 =
         errorResponse "Failed to fetch URL: Failed to fetch URL content" 400 ∧
       (documentPOST req { ora with urlFetch := UrlFetchOutcome.connRefused } σ now).1 ≠
         (documentPOST req { ora with urlFetch := UrlFetchOutcome.notFound } σ now).1 ∧
       (documentPOST req { ora with urlFetch := UrlFetchOutcome.connRefused } σ now).1 ≠
         (documentPOST req { ora with urlFetch := UrlFetchOutcome.failure } σ now).1 ∧
       (documentPOST req { ora with urlFetch := UrlFetchOutcome.notFound } σ now).1 ≠
         (documentPOST req { ora with urlFetch := UrlFetchOutcome.failure } σ now).1) := by
  constructor
  · intro req ora f1 f2 σ now u p htyp hurl hprot hbad
    by_cases hallow : (rateLimitStep heavyConfig now σ
        (resolveIdentifier none req.xForwardedFor req.xRealIp)).1.allowed = true
    · constructor
      · rw [documentPOST_allowed req _ σ now hallow, documentPOST_allowed req _ σ now hallow,
          documentPOSTBody_badscheme req _ _ u p htyp hurl hprot hbad,
          documentPOSTBody_badscheme req _ _ u p htyp hurl hprot hbad]
      · intro _
        rw [documentPOST_allowed req _ σ now hallow,
          documentPOSTBody_badscheme req _ _ u p htyp hurl hprot hbad]
    · have hfalse : (rateLimitStep heavyConfig now σ
          (resolveIdentifier none req.xForwardedFor req.xRealIp)).1.allowed = false :=
        Bool.not_eq_true _ ▸ Bool.eq_false_iff.mpr hallow
      constructor
      · rw [documentPOST_rejected req _ σ now hfalse,
          documentPOST_rejected req _ σ now hfalse]
      · intro hcontra
        exact absurd hcontra hallow
  · intro req ora σ now u p htyp hurl hprot hgood hallow
    have e1 := documentPOSTBody_fetchError req { ora with urlFetch := UrlFetchOutcome.connRefused }
      (rateLimitStep heavyConfig now σ (resolveIdentifier none req.xForwardedFor req.xRealIp)).1
      u p "Cannot connect to the URL" htyp hurl hprot hgood rfl
    have e2 := documentPOSTBody_fetchError req { ora with urlFetch := UrlFetchOutcome.notFound }
      (rateLimitStep heavyConfig now σ (resolveIdentifier none req.xForwardedFor req.xRealIp)).1
      u p "URL not found" htyp hurl hprot hgood rfl
    have e3 := documentPOSTBody_fetchError req { ora with urlFetch := UrlFetchOutcome.failure }
      (rateLimitStep heavyConfig now σ (resolveIdentifier none req.xForwardedFor req.xRealIp)).1
      u p "Failed to fetch URL content" htyp hurl hprot hgood rfl
    have d1 := documentPOST_allowed req { ora with urlFetch := UrlFetchOutcome.connRefused }
      σ now hallow
    have d2 := documentPOST_allowed req { ora with urlFetch := UrlFetchOutcome.notFound }
      σ now hallow
    have d3 := documentPOST_allowed req { ora with urlFetch := UrlFetchOutcome.failure }
      σ now hallow
    refine ⟨?_, ?_, ?_, ?_, ?_, ?_⟩
    · rw [d1]; exact e1
    · rw [d2]; exact e2
    · rw [d3]; exact e3
    · rw [d1, d2, e1, e2]; simp [errorResponse]
    · rw [d1, d3, e1, e3]; simp [errorResponse]
    · rw [d2, d3, e2, e3]; simp [errorResponse]

/-- Concrete oracle bundle used by the C8 witness. -/
def c8Oracles : DocOracles :=
  ⟨UrlFetchOutcome.failure, Except.error (), "", "", true, Except.error {},
   fun _ => PageRender.failed, Except.error {}, fun _ => Except.ok none,
   Except.ok none, Except.ok none, Except.ok none, Except.ok none⟩

/-- Witness for C8: an ftp URL is rejected with the protocol error
independently of the fetch outcome, and an http URL surfaces the three
fetch failures as distinct errors. -/
theorem C8_url_scheme_and_errors_witness :
    urlProtocol "ftp://example.com" = some "ftp:" ∧
    ("ftp:" == "http:" || "ftp:" == "https:") = false ∧
    (documentPOST ⟨none, none, some "url", some "ftp://example.com", none⟩
        { c8Oracles with urlFetch := UrlFetchOutcome.failure } emptyStore 0 =
      documentPOST ⟨none, none, some "url", some "ftp://example.com", none⟩
        { c8Oracles with urlFetch := UrlFetchOutcome.notFound } emptyStore 0) ∧
    (documentPOST ⟨none, none, some "url", some "ftp://example.com", none⟩
        { c8Oracles with urlFetch := UrlFetchOutcome.failure } emptyStore 0).1 =
      errorResponse "Invalid URL protocol. Only HTTP and HTTPS are supported." 400 ∧
    urlProtocol "http://example.com" = some "http:" ∧
    (documentPOST ⟨none, none, some "url", some "http://example.com", none⟩
        { c8Oracles with urlFetch := UrlFetchOutcome.connRefused } emptyStore 0).1 =
      errorResponse "Failed to fetch URL: Cannot connect to the URL" 400 ∧
    (documentPOST ⟨none, none, some "url", some "http://example.com", none⟩
        { c8Oracles with urlFetch := UrlFetchOutcome.notFound } emptyStore 0).1 =
      errorResponse "Failed to fetch URL: URL not found" 400 ∧
    (documentPOST ⟨none, none, some "url", some "http://example.com", none⟩
        { c8Oracles with urlFetch := UrlFetchOutcome.connRefused } emptyStore 0).1 ≠
      (documentPOST ⟨none, none, some "url", some "http://example.com", none⟩
        { c8Oracles with urlFetch := UrlFetchOutcome.notFound } emptyStore 0).1 := by
  have h := C8_url_scheme_and_errors
  have h1 := h.1 ⟨none, none, some "url", some "ftp://example.com", none⟩ c8Oracles
    UrlFetchOutcome.failure UrlFetchOutcome.notFound emptyStore 0 "ftp://example.com" "ftp:"
    rfl rfl (by decide) (by decide)
  have h2 := h.2 ⟨none, none, some "url", some "http://example.com", none⟩ c8Oracles emptyStore 0
    "http://example.com" "http:" rfl rfl (by decide) (by decide) (by decide)
  exact ⟨by decide, by decide, h1.1, h1.2 (by decide), by decide,
    h2.1, h2.2.1, h2.2.2.2.1⟩

lemma convert_no_images (n : Nat) (render : Nat → PageRender)
    (h : ∀ i img, render i ≠ PageRender.ok img) :
    convertPDFToImages (Except.ok n) render =
      Except.ok ([], if n == 0 then 1 else n) := by
  have himg : ((List.range (min (if n == 0 then 1 else n) 5)).filterMap (fun k =>
      match render (k + 1) with
      | PageRender.ok img => some img
      | PageRender.noPath => none
      | PageRender.failed => none)) = ([] : List String) := by
    apply List.filterMap_eq_nil_iff.mpr
    intro k _
    cases hr : render (k + 1) with
    | ok img => exact absurd hr (h (k + 1) img)
    | noPath => rfl
    | failed => rfl
  simp only [convertPDFToImages]
  rw [himg]

lemma processPdf_placeholder (ora : DocOracles) (fileName : String) (n : Nat) (txt : String)
    (hpages : ora.pdfPages = Except.ok n)
    (hnoimg : ∀ i img, ora.pageRender i ≠ PageRender.ok img)
    (htxt : ora.pdfText = Except.ok txt)
    (hshort : jsLength (jsTake txt 8000) ≤ 50) :
    processPdf ora fileName =
      Except.ok ("Unable to process PDF \"" ++ fileName ++
        "\". The document may be image-based or corrupted.") := by
  unfold processPdf
  rw [hpages, convert_no_images n ora.pageRender hnoimg, htxt]
  simp [Nat.not_lt.mpr hshort]

lemma afterExtraction_pdf_ok (ora : DocOracles) (rl : AdmitResult) (fileName s : String)
    (hkey : ora.apiKeyConfigured = true)
    (hpdf : processPdf ora fileName = Except.ok s) :
    afterExtraction ora rl true "" fileName = successResponse s fileName rl := by
  unfold afterExtraction
  rw [hkey, hpdf]
  simp

lemma documentPOSTBody_pdfFile (req : DocRequest) (ora : DocOracles) (rl : AdmitResult)
    (f : DocFile) (htyp : req.typ = some "file") (hfile : req.file = some f)
    (hsize : f.size ≤ 10 * 1024 * 1024)
    (hpdf : jsEndsWith (jsToLower f.name) ".pdf" = true) :
    documentPOSTBody req ora rl = afterExtraction ora rl true "" f.name := by
  unfold documentPOSTBody
  rw [htyp, hfile]
  simp [hpdf, Nat.not_lt.mpr hsize]

/-- Concrete request used by the C5 counterexample: a 1 kB PDF upload. -/
def c5Request : DocRequest := ⟨none, none, some "file", none, some ⟨"scan.pdf", 1000⟩⟩

/-- Concrete oracles for the C5 counterexample: the PDF parses with 3
pages, every page render throws, text extraction succeeds but yields only
10 characters. -/
def c5Oracles : DocOracles :=
  ⟨UrlFetchOutcome.failure, Except.error (), "", "application/pdf", true, Except.ok 3,
   fun _ => PageRender.failed, Except.ok "short text", fun _ => Except.ok none,
   Except.ok none, Except.ok none, Except.ok none, Except.ok none⟩

/-- C5 counterexample: a PDF whose image rendering completes with zero page
images and whose extracted text is below the 50-character threshold is
answered with HTTP 200, no error field, and the fixed placeholder summary —
a success response, not the descriptive failure the claim requires. -/
theorem C5_zero_image_counterexample :
    (documentPOST c5Request c5Oracles emptyStore 0).1.status = 200 ∧
    (documentPOST c5Request c5Oracles emptyStore 0).1.error = none ∧
    (documentPOST c5Request c5Oracles emptyStore 0).1.summary =
      some "Unable to process PDF \"scan.pdf\". The document may be image-based or corrupted." := by
  refine ⟨by decide, by decide, by decide⟩

/-- C5 (amended). For every admitted PDF submission for which image
rendering completes without throwing but produces zero page images and PDF
text extraction succeeds with content at or below the 50-character
threshold, the document route returns a 200 success whose summary is the
fixed placeholder message naming the file — it does NOT fail the request.
(The descriptive-error path exists only when the rendering or extraction
step throws.) -/
theorem C5_zero_image_placeholder_success (req : DocRequest) (ora : DocOracles)
    (σ : Store) (now : Nat) (f : DocFile) (n : Nat) (txt : String)
    (hallow : (rateLimitStep heavyConfig now σ
      (resolveIdentifier none req.xForwardedFor req.xRealIp)).1.allowed = true)
    (htyp : req.typ = some "file") (hfile : req.file = some f)
    (hsize : f.size ≤ 10 * 1024 * 1024)
    (hpdf : jsEndsWith (jsToLower f.name) ".pdf" = true)
    (hkey : ora.apiKeyConfigured = true)
    (hpages : ora.pdfPages = Except.ok n)
    (hnoimg : ∀ i img, ora.pageRender i ≠ PageRender.ok img)
    (htxt : ora.pdfText = Except.ok txt)
    (hshort : jsLength (jsTake txt 8000) ≤ 50) :
    (documentPOST req ora σ now).1.status = 200 ∧
    (documentPOST req ora σ now).1.error = none ∧
    (documentPOST req ora σ now).1.summary =
      some ("Unable to process PDF \"" ++ f.name ++
        "\". The document may be image-based or corrupted.") := by
  rw [documentPOST_allowed req ora σ now hallow]
  rw [show (documentPOSTBody req ora
      (rateLimitStep heavyConfig now σ
        (resolveIdentifier none req.xForwardedFor req.xRealIp)).1,
      (rateLimitStep heavyConfig now σ
        (resolveIdentifier none req.xForwardedFor req.xRealIp)).2).1 =
      documentPOSTBody req ora (rateLimitStep heavyConfig now σ
        (resolveIdentifier none req.xForwardedFor req.xRealIp)).1 from rfl]
  rw [documentPOSTBody_pdfFile req ora _ f htyp hfile hsize hpdf]
  rw [afterExtraction_pdf_ok ora _ f.name _ hkey
    (processPdf_placeholder ora f.name n txt hpages hnoimg htxt hshort)]
  exact ⟨rfl, rfl, rfl⟩

/-- Witness for C5 (amended), at the concrete counterexample request. -/
theorem C5_zero_image_placeholder_success_witness :
    (rateLimitStep heavyConfig 0 emptyStore
      (resolveIdentifier none none none)).1.allowed = true ∧
    c5Request.typ = some "file" ∧
    c5Request.file = some ⟨"scan.pdf", 1000⟩ ∧
    jsEndsWith (jsToLower "scan.pdf") ".pdf" = true ∧
    c5Oracles.pdfPages = Except.ok 3 ∧
    c5Oracles.pdfText = Except.ok "short text" ∧
    jsLength (jsTake "short text" 8000) ≤ 50 ∧
    ((documentPOST c5Request c5Oracles emptyStore 0).1.status = 200 ∧
     (documentPOST c5Request c5Oracles emptyStore 0).1.error = none ∧
     (documentPOST c5Request c5Oracles emptyStore 0).1.summary =
       some ("Unable to process PDF \"" ++ "scan.pdf" ++
         "\". The document may be image-based or corrupted.")) := by
  refine ⟨by decide, rfl, rfl, by decide, rfl, rfl, by decide, ?_⟩
  exact C5_zero_image_placeholder_success c5Request c5Oracles emptyStore 0
    ⟨"scan.pdf", 1000⟩ 3 "short text" (by decide) rfl rfl (by decide) (by decide) rfl rfl
    (fun i img h => by cases h) rfl (by decide)
